import Mathlib

/-!
Verification development for a protocol-compatible mock of the Athena-style
JSON-over-HTTP query-execution API (`src/main.rs`).

The embedding models:
* the concurrent key-value State Store (`evmap`): a published map of value
  bags plus a batch of pending write operations made visible by `refresh`;
* the Lifecycle Advancer (`process_query`): one loop iteration is
  `process_query_step`, which reads the published state, acts per the
  transition table, and publishes; the loop's timing follows the runtime's
  `interval` timer, whose first tick completes immediately;
* the Operation Dispatcher (`root`): dispatch on the `X-Amz-Target` header,
  body extraction per the JSON content-type filter installed in `main`,
  and the per-operation responses.  A `.unwrap()` on a store read is
  modelled as a `panicked` outcome.

Machine integers are modelled as `Nat` with explicit reductions `% 2 ^ 128`
where the 128-bit width of a UUID value matters.
-/

/-- Header constant `OPERATION_TARGET_HEADER` from `src/main.rs`. -/
def OPERATION_TARGET_HEADER : String := "X-Amz-Target"

/-- Operation-name constant from `src/main.rs`. -/
def OPERATION_NAME_START_QUERY_EXECUTION : String := "AmazonAthena.StartQueryExecution"

/-- Operation-name constant from `src/main.rs`. -/
def OPERATION_NAME_GET_QUERY_EXECUTION : String := "AmazonAthena.GetQueryExecution"

/-- Operation-name constant from `src/main.rs`. -/
def OPERATION_NAME_GET_QUERY_RESULTS : String := "AmazonAthena.GetQueryResults"

/-- A JSON value, as produced by the framework's JSON body parser. -/
inductive Json where
  | null : Json
  | bool (b : Bool) : Json
  | num (n : Int) : Json
  | str (s : String) : Json
  | arr (elems : List Json) : Json
  | obj (fields : List (String × Json)) : Json

/-- Modelled from the spec: the `model` module (file `model.rs`) is not under
`src/`; per the spec, the typed input of get-query-execution is a JSON object
that "must include field `QueryExecutionId` (string)".  This is the `Param`
struct deserialized by the framework. -/
structure Param where
  QueryExecutionId : String

/-- Look up the first field with the given name in a JSON object's field list. -/
def jsonLookup : List (String × Json) → String → Option Json
  | [], _ => none
  | f :: rest, k => if f.1 == k then some f.2 else jsonLookup rest k

/-- Modelled from the spec: deserialization of `Param` from a parsed JSON
value (the derived deserializer of the missing `model.rs`): the value must be
an object carrying a string field `QueryExecutionId`. -/
def paramFromJson : Json → Option Param
  | Json.obj fields =>
    match jsonLookup fields "QueryExecutionId" with
    | some (Json.str s) => some (Param.mk s)
    | _ => none
  | _ => none

/-- An inbound request as the handler sees it: the optional
`X-Amz-Target` header value, the optional content type (type, subtype), and
the body parsed as JSON (`none` when absent or not well-formed JSON). -/
structure Req where
  target : Option String
  contentType : Option (String × String)
  body : Option Json

/-- The JSON content-type filter installed via `JsonConfig` in `main`
(`src/main.rs` lines 92-95): the type must be `application` and the subtype
must start with `x-amz-json-` (prefix test on the subtype's characters). -/
def json_content_type_filter (ct : String × String) : Bool :=
  ct.1 == "application" && "x-amz-json-".toList.isPrefixOf ct.2.toList

/-- The framework's extraction of `Option<web::Json<Param>>`: any extraction
failure (missing or rejected content type, unparseable body, body not
matching `Param`) yields `none`. -/
def extractParam (req : Req) : Option Param :=
  match req.contentType with
  | none => none
  | some ct =>
    if json_content_type_filter ct then
      match req.body with
      | none => none
      | some j => paramFromJson j
    else none

/-- The SDK's `QueryExecutionState` enumeration, including its catch-all
variant for unknown wire strings. -/
inductive QueryExecutionState where
  | cancelled : QueryExecutionState
  | failed : QueryExecutionState
  | queued : QueryExecutionState
  | running : QueryExecutionState
  | succeeded : QueryExecutionState
  | unknownValue (s : String) : QueryExecutionState

/-- `QueryExecutionState::from(&str)` of the SDK. -/
def QueryExecutionState.fromString (s : String) : QueryExecutionState :=
  if s == "CANCELLED" then QueryExecutionState.cancelled
  else if s == "FAILED" then QueryExecutionState.failed
  else if s == "QUEUED" then QueryExecutionState.queued
  else if s == "RUNNING" then QueryExecutionState.running
  else if s == "SUCCEEDED" then QueryExecutionState.succeeded
  else QueryExecutionState.unknownValue s

/-- `QueryExecutionState::as_str` of the SDK. -/
def QueryExecutionState.asStr : QueryExecutionState → String
  | QueryExecutionState.cancelled => "CANCELLED"
  | QueryExecutionState.failed => "FAILED"
  | QueryExecutionState.queued => "QUEUED"
  | QueryExecutionState.running => "RUNNING"
  | QueryExecutionState.succeeded => "SUCCEEDED"
  | QueryExecutionState.unknownValue s => s

/-- A pending write operation of the store's write handle. -/
inductive StoreOp where
  | ins (k v : String) : StoreOp
  | emp (k : String) : StoreOp

/-- Look up the value bag of a key in the published map. -/
def lookupBag : List (String × List String) → String → Option (List String)
  | [], _ => none
  | e :: rest, k => if e.1 == k then some e.2 else lookupBag rest k

/-- Append a value to a key's bag (`evmap` `insert` semantics). -/
def bagInsert : List (String × List String) → String → String → List (String × List String)
  | [], k, v => [(k, [v])]
  | e :: rest, k, v =>
    if e.1 == k then (e.1, e.2 ++ [v]) :: rest else e :: bagInsert rest k v

/-- Clear a key's bag of all values (`evmap` `empty` semantics). -/
def bagEmpty : List (String × List String) → String → List (String × List String)
  | [], _ => []
  | e :: rest, k => if e.1 == k then (e.1, []) :: rest else e :: bagEmpty rest k

/-- The State Store (`evmap`): the published map visible to readers, plus
the write handle's pending operations, which become visible on `refresh`. -/
structure Store where
  published : List (String × List String)
  pending : List StoreOp

/-- The store created by `evmap::new()`. -/
def Store.init : Store := Store.mk [] []

/-- `ReadHandle::get_one`: the first value of the key's published bag. -/
def Store.get_one (s : Store) (k : String) : Option String :=
  (lookupBag s.published k).bind List.head?

/-- `WriteHandle::insert`: queue an insert; invisible until `refresh`. -/
def Store.insert (s : Store) (k v : String) : Store :=
  Store.mk s.published (s.pending ++ [StoreOp.ins k v])

/-- `WriteHandle::empty`: queue a clear of the key; invisible until `refresh`. -/
def Store.empty (s : Store) (k : String) : Store :=
  Store.mk s.published (s.pending ++ [StoreOp.emp k])

/-- Apply one pending operation to a published map. -/
def applyOp (m : List (String × List String)) : StoreOp → List (String × List String)
  | StoreOp.ins k v => bagInsert m k v
  | StoreOp.emp k => bagEmpty m k

/-- `WriteHandle::refresh`: publish all pending operations atomically. -/
def Store.refresh (s : Store) : Store :=
  Store.mk (s.pending.foldl applyOp s.published) []

/-- A hexadecimal digit character, lowercase. -/
def hexDigit (n : Nat) : Char :=
  Char.ofNat (if n < 10 then 48 + n else 87 + n)

/-- The numeric value of a hexadecimal digit character. -/
def hexVal (c : Char) : Nat :=
  if c.toNat ≥ 97 then c.toNat - 87 else c.toNat - 48

/-- Render the low `w` hex digits of `n`, most significant first. -/
def toHexFixedL : Nat → Nat → List Char
  | 0, _ => []
  | w + 1, n => toHexFixedL w (n / 16) ++ [hexDigit (n % 16)]

/-- The canonical hyphenated rendering of a 128-bit UUID value
(`Uuid::to_string`): hex groups of 8, 4, 4, 4 and 12 digits, most
significant first. -/
def uuidChars (n : Nat) : List Char :=
  toHexFixedL 8 (n / 16 ^ 24) ++ '-' ::
    (toHexFixedL 4 (n / 16 ^ 20) ++ '-' ::
      (toHexFixedL 4 (n / 16 ^ 16) ++ '-' ::
        (toHexFixedL 4 (n / 16 ^ 12) ++ '-' :: toHexFixedL 12 n)))

/-- `Uuid::to_string` as a Lean `String`. -/
def uuidToString (n : Nat) : String := String.mk (uuidChars n)

/-- `Uuid::new_v4` on a 128-bit random draw `r`: byte 6 keeps its low nibble
and gets version nibble `4`; byte 8 keeps its low six bits and gets variant
bits `10`.  Bytes are counted from the most significant end, so byte 6 is
bits 72..79 and byte 8 is bits 56..63 from the least significant end.  The
result is below `2 ^ 128` by construction; the final reduction makes the
128-bit width explicit. -/
def uuidV4Canon (r : Nat) : Nat :=
  let n := r % 2 ^ 128
  let n1 := n / 2 ^ 80 * 2 ^ 80 + (n / 2 ^ 72 % 256 % 16 + 64) * 2 ^ 72 + n % 2 ^ 72
  (n1 / 2 ^ 64 * 2 ^ 64 + (n1 / 2 ^ 56 % 256 % 64 + 128) * 2 ^ 56 + n1 % 2 ^ 56) % 2 ^ 128

/-- Decoding step for reading a hyphenated hex rendering back as a number:
hyphens are skipped, hex digits accumulate most-significant-first. -/
def uuidFoldStep (a : Nat) (c : Char) : Nat :=
  if c == '-' then a else a * 16 + hexVal c

/-- A response body: plain text or a JSON document. -/
inductive RespBody where
  | text (s : String) : RespBody
  | jsonBody (j : Json) : RespBody

/-- An HTTP response: status code and body. -/
structure Resp where
  status : Nat
  body : RespBody

/-- The outcome of running the handler: a response, or a panic of the
handler task (an `unwrap` of `None`). -/
inductive Outcome where
  | resp (r : Resp) : Outcome
  | panicked : Outcome

/-- Observable side effects of one handler run: store keys read, and the
identifiers for which a Lifecycle Advancer was spawned. -/
structure Effects where
  reads : List String
  spawns : List String

/-- The dispatcher `root` of `src/main.rs`.  `rnd` is the 128-bit random
draw consumed by `Uuid::new_v4` when the start branch runs.  Returns the
outcome together with the run's observable effects. -/
def root (store : Store) (rnd : Nat) (req : Req) : Outcome × Effects :=
  match req.target with
  | none =>
    (Outcome.resp (Resp.mk 400
        (RespBody.text ("'" ++ OPERATION_TARGET_HEADER ++ "' not found"))),
      Effects.mk [] [])
  | some target =>
    if target == OPERATION_NAME_START_QUERY_EXECUTION then
      let query_execution_id := uuidToString (uuidV4Canon rnd)
      (Outcome.resp (Resp.mk 200
          (RespBody.jsonBody (Json.obj [("QueryExecutionId", Json.str query_execution_id)]))),
        Effects.mk [] [query_execution_id])
    else if target == OPERATION_NAME_GET_QUERY_EXECUTION then
      match extractParam req with
      | none =>
        (Outcome.resp (Resp.mk 400 (RespBody.text "unexpected input")), Effects.mk [] [])
      | some input =>
        match Store.get_one store input.QueryExecutionId with
        | none => (Outcome.panicked, Effects.mk [input.QueryExecutionId] [])
        | some stored =>
          let state := QueryExecutionState.fromString stored
          (Outcome.resp (Resp.mk 200 (RespBody.jsonBody (Json.obj
              [("QueryExecution", Json.obj
                [("QueryExecutionId", Json.str input.QueryExecutionId),
                 ("Status", Json.obj [("state", Json.str state.asStr)])])]))),
            Effects.mk [input.QueryExecutionId] [])
    else if target == OPERATION_NAME_GET_QUERY_RESULTS then
      (Outcome.resp (Resp.mk 501
          (RespBody.text ("not implemented yet: \"" ++ target ++ "\""))),
        Effects.mk [] [])
    else
      (Outcome.resp (Resp.mk 400
          (RespBody.text ("unexpected target: \"" ++ target ++ "\""))),
        Effects.mk [] [])

/-- An observable event of one Advancer loop iteration: a (logical) write of
a state value for the owned key (the `empty`-then-`insert` pair, or a plain
`insert`), a publish (`refresh`), or a sleep (`interval.tick().await`). -/
inductive AdvEvent where
  | write (v : String) : AdvEvent
  | publish : AdvEvent
  | sleep : AdvEvent

/-- One iteration of the `process_query` loop of `src/main.rs`: read the
published state of the owned identifier, act per the transition table,
publish, sleep.  Returns the store after the iteration, the iteration's
event list in order, and whether the loop continues (`false` exactly when
the `SUCCEEDED` branch returned, skipping both `refresh` and the tick). -/
def process_query_step (id : String) (s : Store) : Store × List AdvEvent × Bool :=
  match Store.get_one s id with
  | some state =>
    if state == "QUEUED" then
      (Store.refresh (Store.insert (Store.empty s id) id "RUNNING"),
        ([AdvEvent.write "RUNNING", AdvEvent.publish, AdvEvent.sleep], true))
    else if state == "RUNNING" then
      (Store.refresh (Store.insert (Store.empty s id) id "SUCCEEDED"),
        ([AdvEvent.write "SUCCEEDED", AdvEvent.publish, AdvEvent.sleep], true))
    else if state == "SUCCEEDED" then
      (s, ([], false))
    else
      (Store.refresh s, ([AdvEvent.publish, AdvEvent.sleep], true))
  | none =>
    (Store.refresh (Store.insert s id "QUEUED"),
      ([AdvEvent.write "QUEUED", AdvEvent.publish, AdvEvent.sleep], true))

/-- The store after `n` iterations of the Advancer for `id`, starting from
the freshly created store (the identifier is fresh, so it has no record). -/
def process_query_iters (id : String) : Nat → Store
  | 0 => Store.init
  | n + 1 => (process_query_step id (process_query_iters id n)).1

/-- The published state of `id` after `n` Advancer iterations. -/
def stateAfter (id : String) (n : Nat) : Option String :=
  Store.get_one (process_query_iters id n) id

/-- Whether the loop continues after iteration `n + 1` (the continue flag of
the step taken from the store after `n` iterations). -/
def advContinues (id : String) (n : Nat) : Bool :=
  (process_query_step id (process_query_iters id n)).2.2

/-- The lifecycle sequence of the spec: position 0 is `(absent)`, then
`QUEUED`, `RUNNING`, `SUCCEEDED`. -/
def seqState : Nat → Option String
  | 0 => none
  | 1 => some "QUEUED"
  | 2 => some "RUNNING"
  | _ => some "SUCCEEDED"

/-- Rank of a published state in the lifecycle order. -/
def stateRank : Option String → Nat
  | none => 0
  | some s =>
    if s == "QUEUED" then 1
    else if s == "RUNNING" then 2
    else if s == "SUCCEEDED" then 3
    else 0

/-- The start instant of iteration `n` (1-based), in time units, with tick
interval `d`: the runtime's `interval` timer completes its first tick
immediately (its first deadline is the creation instant), so iterations 1
and 2 both start at time 0, and iteration `n` starts at `(n - 2) * d`. -/
def iterTime (d n : Nat) : Nat := (n - 2) * d

/-- How many loop iterations have started by the end of instant `t`: the
iterations among 1..4 whose start time is at most `t` (the loop performs
exactly 4 iterations, the last of which observes `SUCCEEDED` and exits). -/
def itersRunBy (d t : Nat) : Nat :=
  ((List.range 4).map (fun i => i + 1)).countP (fun n => decide (iterTime d n ≤ t))

/-- The published state of `id` observed at the end of instant `t` (all
iterations that start at or before `t` have completed, since the loop body
never suspends between its read and its publish). -/
def publishedAfter (id : String) (d t : Nat) : Option String :=
  stateAfter id (itersRunBy d t)

/-- Reading the only key of a single-entry published map. -/
theorem get_one_single (id v : String) :
    Store.get_one (Store.mk [(id, [v])] []) id = some v := by
  simp [Store.get_one, lookupBag]

/-- After its first iteration the Advancer has published `QUEUED`. -/
theorem iters_one (id : String) :
    process_query_iters id 1 = Store.mk [(id, ["QUEUED"])] [] := by
  simp [process_query_iters, process_query_step, Store.init, Store.get_one,
    lookupBag, Store.insert, Store.refresh, applyOp, bagInsert]

/-- After its second iteration the Advancer has published `RUNNING`. -/
theorem iters_two (id : String) :
    process_query_iters id 2 = Store.mk [(id, ["RUNNING"])] [] := by
  rw [show (2 : Nat) = 1 + 1 from rfl, process_query_iters, iters_one]
  simp [process_query_step, Store.get_one, lookupBag, Store.insert,
    Store.empty, Store.refresh, applyOp, bagInsert, bagEmpty]

/-- After its third iteration the Advancer has published `SUCCEEDED`. -/
theorem iters_three (id : String) :
    process_query_iters id 3 = Store.mk [(id, ["SUCCEEDED"])] [] := by
  rw [show (3 : Nat) = 2 + 1 from rfl, process_query_iters, iters_two]
  simp [process_query_step, Store.get_one, lookupBag, Store.insert,
    Store.empty, Store.refresh, applyOp, bagInsert, bagEmpty]

/-- A step taken from the published `SUCCEEDED` state changes nothing,
emits no event, and stops the loop. -/
theorem step_succeeded (id : String) :
    process_query_step id (Store.mk [(id, ["SUCCEEDED"])] [])
      = (Store.mk [(id, ["SUCCEEDED"])] [], ([], false)) := by
  simp [process_query_step, Store.get_one, lookupBag]

/-- From the third iteration on, the store no longer changes. -/
theorem iters_ge_three (id : String) (n : Nat) :
    process_query_iters id (n + 3) = Store.mk [(id, ["SUCCEEDED"])] [] := by
  induction n with
  | zero => exact iters_three id
  | succ k ih =>
    show (process_query_step id (process_query_iters id (k + 3))).1 = _
    rw [ih, step_succeeded]

/-- The published state of the owned identifier after `n` iterations is the
`min n 3`-th element of the lifecycle sequence. -/
theorem stateAfter_eq (id : String) (n : Nat) :
    stateAfter id n = seqState (min n 3) := by
  match n with
  | 0 => simp [stateAfter, process_query_iters, Store.init, Store.get_one, lookupBag, seqState]
  | 1 => rw [stateAfter, iters_one, get_one_single]; rfl
  | 2 => rw [stateAfter, iters_two, get_one_single]; rfl
  | (k + 3) =>
    rw [stateAfter, iters_ge_three, get_one_single]
    have : min (k + 3) 3 = 3 := by omega
    rw [this]
    rfl

/-- `toHexFixedL` always produces exactly `w` characters. -/
theorem toHexFixedL_length : ∀ (w n : Nat), (toHexFixedL w n).length = w
  | 0, _ => rfl
  | w + 1, n => by
    rw [toHexFixedL]
    simp [toHexFixedL_length w (n / 16)]

/-- Every UUID rendering is 36 characters long. -/
theorem uuidToString_length (n : Nat) : (uuidToString n).length = 36 := by
  simp [uuidToString, String.length, uuidChars, toHexFixedL_length]

/-- Decoding inverts encoding on single hex digits. -/
theorem hexVal_hexDigit : ∀ d, d < 16 → hexVal (hexDigit d) = d := by decide

/-- A hex digit character is never a hyphen. -/
theorem hexDigit_ne_dash : ∀ d, d < 16 → (hexDigit d == '-') = false := by decide

/-- The decoding step skips hyphens. -/
theorem uuidFoldStep_dash (a : Nat) : uuidFoldStep a '-' = a := by
  simp [uuidFoldStep]

/-- Folding the decoder over a fixed-width hex rendering recovers the low
digits on top of the accumulator. -/
theorem toHexFixedL_foldl : ∀ (w n a : Nat),
    (toHexFixedL w n).foldl uuidFoldStep a = a * 16 ^ w + n % 16 ^ w
  | 0, n, a => by simp [toHexFixedL, Nat.mod_one]
  | w + 1, n, a => by
    have ih := toHexFixedL_foldl w (n / 16) a
    have hlt : n % 16 < 16 := Nat.mod_lt n (by norm_num)
    have hv : hexVal (hexDigit (n % 16)) = n % 16 := hexVal_hexDigit (n % 16) hlt
    have hne : (hexDigit (n % 16) == '-') = false := hexDigit_ne_dash (n % 16) hlt
    rw [toHexFixedL, List.foldl_append, ih]
    simp only [List.foldl_cons, List.foldl_nil, uuidFoldStep, hne, Bool.false_eq_true,
      if_false, hv]
    have hm : n % 16 ^ (w + 1) = n % 16 + 16 * (n / 16 % 16 ^ w) := by
      rw [pow_succ, mul_comm]
      exact Nat.mod_mul
    rw [hm, pow_succ]
    ring

/-- Splitting the low `4 + j` hex digits of `x / 16 ^ i` into the low 4 and
the next `j`. -/
theorem hexChunk (x i j : Nat) :
    x / 16 ^ i % 16 ^ (4 + j)
      = x / 16 ^ i % 16 ^ 4 + 16 ^ 4 * (x / 16 ^ (i + 4) % 16 ^ j) := by
  rw [pow_add, Nat.mod_mul, Nat.div_div_eq_div_mul, ← pow_add]

/-- Folding the decoder over a full UUID rendering recovers the 128-bit
value. -/
theorem uuidChars_foldl (n : Nat) :
    (uuidChars n).foldl uuidFoldStep 0 = n % 16 ^ 32 := by
  have h1 : n % 16 ^ 32 = n % 16 ^ 12 + 16 ^ 12 * (n / 16 ^ 12 % 16 ^ 20) := by
    rw [show (16 : Nat) ^ 32 = 16 ^ 12 * 16 ^ 20 by norm_num]
    exact Nat.mod_mul
  have h2 := hexChunk n 12 16
  rw [show (4 + 16 : Nat) = 20 from rfl, show (12 + 4 : Nat) = 16 from rfl] at h2
  have h3 := hexChunk n 16 12
  rw [show (4 + 12 : Nat) = 16 from rfl, show (16 + 4 : Nat) = 20 from rfl] at h3
  have h4 := hexChunk n 20 8
  rw [show (4 + 8 : Nat) = 12 from rfl, show (20 + 4 : Nat) = 24 from rfl] at h4
  rw [uuidChars]
  simp only [List.foldl_append, List.foldl_cons, uuidFoldStep_dash, toHexFixedL_foldl]
  rw [h1, h2, h3, h4]
  ring

/-- The UUID rendering is injective on 128-bit values. -/
theorem uuidToString_inj (m n : Nat) (h : uuidToString m = uuidToString n) :
    m % 2 ^ 128 = n % 2 ^ 128 := by
  have hc : uuidChars m = uuidChars n := by
    have hd := congrArg String.data h
    simpa [uuidToString] using hd
  have hv := congrArg (List.foldl uuidFoldStep 0) hc
  rw [uuidChars_foldl, uuidChars_foldl] at hv
  rwa [show (16 : Nat) ^ 32 = 2 ^ 128 by norm_num] at hv

/-- Canonicalized UUID values are 128-bit. -/
theorem uuidV4Canon_lt (r : Nat) : uuidV4Canon r < 2 ^ 128 := by
  apply Nat.mod_lt
  norm_num

/-- After clearing a key and inserting one value, the key's bag holds
exactly that value, whatever the prior map was. -/
theorem lookup_insert_empty (m : List (String × List String)) (k v : String) :
    lookupBag (bagInsert (bagEmpty m k) k v) k = some [v] := by
  induction m with
  | nil => simp [bagEmpty, bagInsert, lookupBag]
  | cons e rest ih =>
    by_cases he : (e.1 == k) = true
    · simp [bagEmpty, bagInsert, lookupBag, he]
    · simp [bagEmpty, bagInsert, lookupBag, he, ih]

/-- Inserting a value for a key whose published read is `none` (absent key
or emptied bag) makes that value the one `get_one` returns. -/
theorem get_insert_of_absent (m : List (String × List String)) (k v : String)
    (h : (lookupBag m k).bind List.head? = none) :
    (lookupBag (bagInsert m k v) k).bind List.head? = some v := by
  induction m with
  | nil => simp [bagInsert, lookupBag]
  | cons e rest ih =>
    by_cases he : (e.1 == k) = true
    · simp [lookupBag, he] at h
      have hb : e.2 = [] := by
        cases hb2 : e.2 with
        | nil => rfl
        | cons x xs => rw [hb2] at h; simp at h
      simp [bagInsert, lookupBag, he, hb]
    · have he2 : (e.1 == k) = false := by simpa using he
      simp only [lookupBag, he2, Bool.false_eq_true, if_false] at h
      simp [bagInsert, lookupBag, he2, ih h]

/-- C1: a get-query-execution request whose identifier has no record in the
Store does not produce a not-found client error: the handler's `.unwrap()`
of the `None` store read panics.  Evaluated at a concrete request with a
valid body whose identifier is absent from the (empty) store: the outcome is
a panic of the handler after one store read, not a response. -/
theorem c1_get_unknown_identifier_panics :
    root Store.init 0 (Req.mk (some OPERATION_NAME_GET_QUERY_EXECUTION)
        (some ("application", "x-amz-json-1.1"))
        (some (Json.obj [("QueryExecutionId", Json.str "no-such-id")])))
      = (Outcome.panicked, Effects.mk ["no-such-id"] []) := rfl

/-- C2: once its Advancer runs, the published state of an execution
identifier passes through exactly the sequence
(absent) → QUEUED → RUNNING → SUCCEEDED: after `n` iterations it is the
`min n 3`-th element of that sequence; the lifecycle rank never regresses;
and the state changes at a tick exactly while the rank is below 3, so each
transition is made by exactly one advancement tick, none is skipped, and
none is applied twice. -/
theorem c2_lifecycle_sequence (id : String) :
    (∀ n, stateAfter id n = seqState (min n 3))
      ∧ (∀ m n, m ≤ n → stateRank (stateAfter id m) ≤ stateRank (stateAfter id n))
      ∧ (∀ n, stateAfter id (n + 1) ≠ stateAfter id n ↔ n < 3) := by
  have key : ∀ n, stateAfter id n = seqState (min n 3) := stateAfter_eq id
  have rank_eq : ∀ n, stateRank (stateAfter id n) = min n 3 := by
    intro n
    rw [key n]
    match n with
    | 0 => rfl
    | 1 => rfl
    | 2 => rfl
    | k + 3 =>
      have hm : min (k + 3) 3 = 3 := by omega
      rw [hm]
      rfl
  refine ⟨key, ?_, ?_⟩
  · intro m n hmn
    rw [rank_eq m, rank_eq n]
    omega
  · intro n
    constructor
    · intro hne
      by_contra hge
      apply hne
      rw [key (n + 1), key n]
      have e1 : min (n + 1) 3 = 3 := by omega
      have e2 : min n 3 = 3 := by omega
      rw [e1, e2]
    · intro hlt
      rw [key (n + 1), key n]
      match n, hlt with
      | 0, _ => decide
      | 1, _ => decide
      | 2, _ => decide

/-- Witness for C2 at a concrete identifier and tick pair. -/
theorem c2_lifecycle_sequence_witness :
    stateRank (stateAfter "q" 1) ≤ stateRank (stateAfter "q" 2) :=
  (c2_lifecycle_sequence "q").2.1 1 2 (by decide)

/-- C3 as stated fails on the code: the runtime timer's first tick completes
immediately, so iterations 1 and 2 of the Advancer both run before any tick
interval elapses.  At tick interval 1, at the end of instant 0 (before the
first interval has elapsed) the published state is already RUNNING — neither
absent nor QUEUED — and after exactly one interval it is already SUCCEEDED,
not RUNNING. -/
theorem c3_timing_counterexample :
    ¬ (publishedAfter "a" 1 0 = none ∨ publishedAfter "a" 1 0 = some "QUEUED")
      ∧ ¬ (publishedAfter "a" 1 1 = some "RUNNING" ∨ publishedAfter "a" 1 1 = some "QUEUED")
      ∧ publishedAfter "a" 1 0 = some "RUNNING"
      ∧ publishedAfter "a" 1 1 = some "SUCCEEDED" := by decide

/-- The number of Advancer iterations started by the end of instant `t`:
two immediately (the timer's first tick completes at once), the third after
one interval, the fourth after two. -/
theorem itersRunBy_eq (d t : Nat) :
    itersRunBy d t = if 2 * d ≤ t then 4 else if d ≤ t then 3 else 2 := by
  rw [itersRunBy, show (List.range 4).map (fun i => i + 1) = [1, 2, 3, 4] from rfl]
  simp only [List.countP_cons, List.countP_nil, iterTime, decide_eq_true_eq]
  norm_num
  split_ifs <;> omega

/-- C3 amended: because the timer's first tick completes immediately, both
the QUEUED and the RUNNING write happen before any tick interval elapses; a
get-status call made after the start instant but before one full interval
observes RUNNING (QUEUED and not-found are visible only within the start
instant itself), and from one full interval onward the state is SUCCEEDED
and remains SUCCEEDED forever. -/
theorem c3_amended_timing (id : String) (d t : Nat) :
    (t < d → publishedAfter id d t = some "RUNNING")
      ∧ (d ≤ t → publishedAfter id d t = some "SUCCEEDED") := by
  constructor
  · intro ht
    have h : itersRunBy d t = 2 := by
      rw [itersRunBy_eq]
      split_ifs <;> omega
    rw [publishedAfter, h, stateAfter_eq]
    rfl
  · intro ht
    have h : itersRunBy d t = 4 ∨ itersRunBy d t = 3 := by
      rw [itersRunBy_eq]
      rcases Nat.lt_or_ge t (2 * d) with h2 | h2
      · right
        rw [if_neg (by omega), if_pos ht]
      · left
        rw [if_pos (by omega)]
    rcases h with h | h <;> rw [publishedAfter, h, stateAfter_eq] <;> rfl

/-- Witness for the amended C3 at interval 1, instants 0 and 5. -/
theorem c3_amended_timing_witness :
    publishedAfter "w" 1 0 = some "RUNNING" ∧ publishedAfter "w" 1 5 = some "SUCCEEDED" :=
  ⟨(c3_amended_timing "w" 1 0).1 (by decide), (c3_amended_timing "w" 1 5).2 (by decide)⟩

/-- C4: each Advancer iteration reads the current published state of its
identifier and acts per the transition table: no record → write QUEUED;
QUEUED → write RUNNING; RUNNING → write SUCCEEDED; SUCCEEDED → terminate
without writing and without sleeping again.  In every writing case the
event order is write, then publish, then sleep, so every write is followed
by a publish before the next sleep.  `hp` states that the writer has no
unpublished operations, which holds at every iteration boundary. -/
theorem c4_transition_table (id : String) (s : Store) (hp : s.pending = []) :
    (Store.get_one s id = none →
        (process_query_step id s).2
            = ([AdvEvent.write "QUEUED", AdvEvent.publish, AdvEvent.sleep], true)
          ∧ Store.get_one (process_query_step id s).1 id = some "QUEUED")
      ∧ (Store.get_one s id = some "QUEUED" →
        (process_query_step id s).2
            = ([AdvEvent.write "RUNNING", AdvEvent.publish, AdvEvent.sleep], true)
          ∧ Store.get_one (process_query_step id s).1 id = some "RUNNING")
      ∧ (Store.get_one s id = some "RUNNING" →
        (process_query_step id s).2
            = ([AdvEvent.write "SUCCEEDED", AdvEvent.publish, AdvEvent.sleep], true)
          ∧ Store.get_one (process_query_step id s).1 id = some "SUCCEEDED")
      ∧ (Store.get_one s id = some "SUCCEEDED" →
        process_query_step id s = (s, ([], false))) := by
  refine ⟨?_, ?_, ?_, ?_⟩
  · intro h
    constructor
    · simp [process_query_step, h]
    · simp only [process_query_step, h]
      simp [Store.get_one, Store.refresh, Store.insert, hp, applyOp,
        get_insert_of_absent s.published id "QUEUED" h]
  · intro h
    constructor
    · simp [process_query_step, h]
    · simp only [process_query_step, h]
      simp [Store.get_one, Store.refresh, Store.insert, Store.empty, hp, applyOp,
        lookup_insert_empty]
  · intro h
    constructor
    · simp [process_query_step, h]
    · simp only [process_query_step, h]
      simp [Store.get_one, Store.refresh, Store.insert, Store.empty, hp, applyOp,
        lookup_insert_empty]
  · intro h
    simp [process_query_step, h]

/-- Witness for C4: the table's first row at the fresh store. -/
theorem c4_transition_table_witness :
    (process_query_step "x" Store.init).2
        = ([AdvEvent.write "QUEUED", AdvEvent.publish, AdvEvent.sleep], true)
      ∧ Store.get_one (process_query_step "x" Store.init).1 "x" = some "QUEUED" :=
  (c4_transition_table "x" Store.init rfl).1 rfl

/-- C5: every Advancer terminates.  The loop's continue flag is true exactly
for the first three iterations — the fourth iteration observes the terminal
SUCCEEDED state (published by the third) and exits — so the loop runs only
finitely many (exactly four) iterations.  No other actor writes the
identifier's record in this single-writer model. -/
theorem c5_advancer_terminates (id : String) :
    (∀ n, advContinues id n = decide (n < 3)) ∧ stateAfter id 3 = some "SUCCEEDED" := by
  constructor
  · intro n
    match n with
    | 0 => rfl
    | 1 =>
      rw [advContinues, iters_one]
      simp [process_query_step, Store.get_one, lookupBag]
    | 2 =>
      rw [advContinues, iters_two]
      simp [process_query_step, Store.get_one, lookupBag]
    | k + 3 =>
      rw [advContinues, iters_ge_three, step_succeeded]
      have hk : ¬ (k + 3 < 3) := by omega
      simp [hk]
  · rw [stateAfter_eq]
    rfl

/-- C6: a start-query-execution request mints a fresh identifier — the
36-character UUID rendering of the canonicalized random draw — spawns
exactly one Lifecycle Advancer for it, and returns the identifier in the
200 response without reading the store (the response is the same for every
store state, so the call never waits for any state transition); two start
calls whose canonicalized random draws differ return distinct identifiers. -/
theorem c6_start_query_execution (s1 s2 : Store) (r1 r2 : Nat) (req1 req2 : Req)
    (h1 : req1.target = some OPERATION_NAME_START_QUERY_EXECUTION)
    (h2 : req2.target = some OPERATION_NAME_START_QUERY_EXECUTION)
    (hr : uuidV4Canon r1 ≠ uuidV4Canon r2) :
    root s1 r1 req1
        = (Outcome.resp (Resp.mk 200 (RespBody.jsonBody
            (Json.obj [("QueryExecutionId", Json.str (uuidToString (uuidV4Canon r1)))]))),
          Effects.mk [] [uuidToString (uuidV4Canon r1)])
      ∧ root s2 r2 req2
          = (Outcome.resp (Resp.mk 200 (RespBody.jsonBody
              (Json.obj [("QueryExecutionId", Json.str (uuidToString (uuidV4Canon r2)))]))),
            Effects.mk [] [uuidToString (uuidV4Canon r2)])
      ∧ (uuidToString (uuidV4Canon r1)).length = 36
      ∧ uuidToString (uuidV4Canon r1) ≠ uuidToString (uuidV4Canon r2) := by
  refine ⟨?_, ?_, uuidToString_length _, ?_⟩
  · simp [root, h1]
  · simp [root, h2]
  · intro heq
    apply hr
    have hm := uuidToString_inj _ _ heq
    rwa [Nat.mod_eq_of_lt (uuidV4Canon_lt r1), Nat.mod_eq_of_lt (uuidV4Canon_lt r2)] at hm

/-- Witness for C6 at the empty store with random draws 0 and 1. -/
theorem c6_start_query_execution_witness :
    root Store.init 0 (Req.mk (some OPERATION_NAME_START_QUERY_EXECUTION) none none)
        = (Outcome.resp (Resp.mk 200 (RespBody.jsonBody
            (Json.obj [("QueryExecutionId", Json.str (uuidToString (uuidV4Canon 0)))]))),
          Effects.mk [] [uuidToString (uuidV4Canon 0)])
      ∧ (uuidToString (uuidV4Canon 0)).length = 36
      ∧ uuidToString (uuidV4Canon 0) ≠ uuidToString (uuidV4Canon 1) := by
  have h := c6_start_query_execution Store.init Store.init 0 1
    (Req.mk (some OPERATION_NAME_START_QUERY_EXECUTION) none none)
    (Req.mk (some OPERATION_NAME_START_QUERY_EXECUTION) none none)
    rfl rfl (by decide)
  exact ⟨h.1, h.2.2.1, h.2.2.2⟩

/-- C7: a POST without the `X-Amz-Target` header is answered with HTTP 400
whose body embeds the header's name, identically for every store state and
random draw (no operation-specific logic runs), with no store read and no
Advancer spawned; the header name is an infix of the body text. -/
theorem c7_missing_target_header (s : Store) (rnd : Nat) (req : Req)
    (h : req.target = none) :
    root s rnd req
        = (Outcome.resp (Resp.mk 400
            (RespBody.text ("'" ++ OPERATION_TARGET_HEADER ++ "' not found"))),
          Effects.mk [] [])
      ∧ OPERATION_TARGET_HEADER.toList
          <:+: ("'" ++ OPERATION_TARGET_HEADER ++ "' not found").toList := by
  constructor
  · simp [root, h]
  · decide

/-- Witness for C7 at a concrete header-less request. -/
theorem c7_missing_target_header_witness :
    root Store.init 0 (Req.mk none none none)
        = (Outcome.resp (Resp.mk 400
            (RespBody.text ("'" ++ OPERATION_TARGET_HEADER ++ "' not found"))),
          Effects.mk [] [])
      ∧ OPERATION_TARGET_HEADER.toList
          <:+: ("'" ++ OPERATION_TARGET_HEADER ++ "' not found").toList :=
  c7_missing_target_header Store.init 0 (Req.mk none none none) rfl

/-- C8: a get-query-execution request whose body is malformed JSON (no
parsed body) or whose parsed body does not yield the required
`QueryExecutionId` field is answered with HTTP 400 "unexpected input",
with no store read and no Advancer spawned, for every store state. -/
theorem c8_get_invalid_input (s : Store) (rnd : Nat) (req : Req)
    (htgt : req.target = some OPERATION_NAME_GET_QUERY_EXECUTION)
    (hbody : req.body = none ∨ ∀ j, req.body = some j → paramFromJson j = none) :
    root s rnd req
      = (Outcome.resp (Resp.mk 400 (RespBody.text "unexpected input")),
        Effects.mk [] []) := by
  have hex : extractParam req = none := by
    rcases hct : req.contentType with _ | ct
    · simp [extractParam, hct]
    · by_cases hf : json_content_type_filter ct = true
      · rcases hb : req.body with _ | j
        · simp [extractParam, hct, hf, hb]
        · rcases hbody with hn | hall
          · rw [hn] at hb
            cases hb
          · simp [extractParam, hct, hf, hb, hall j hb]
      · have hf2 : json_content_type_filter ct = false := by simpa using hf
        simp [extractParam, hct, hf2]
  simp [root, htgt, hex, OPERATION_NAME_START_QUERY_EXECUTION,
    OPERATION_NAME_GET_QUERY_EXECUTION]

/-- Witness for C8: a get request with the right content type but no
parseable body. -/
theorem c8_get_invalid_input_witness :
    root Store.init 0 (Req.mk (some OPERATION_NAME_GET_QUERY_EXECUTION)
        (some ("application", "x-amz-json-1.1")) none)
      = (Outcome.resp (Resp.mk 400 (RespBody.text "unexpected input")),
        Effects.mk [] []) :=
  c8_get_invalid_input Store.init 0
    (Req.mk (some OPERATION_NAME_GET_QUERY_EXECUTION)
      (some ("application", "x-amz-json-1.1")) none)
    rfl (Or.inl rfl)

/-- C9: a request targeting GetQueryResults is answered with HTTP 501 whose
body starts with "not implemented", identically for every store state (the
store is not read and no Advancer is spawned). -/
theorem c9_get_query_results_not_implemented (s : Store) (rnd : Nat) (req : Req)
    (h : req.target = some OPERATION_NAME_GET_QUERY_RESULTS) :
    root s rnd req
        = (Outcome.resp (Resp.mk 501 (RespBody.text
            ("not implemented yet: \"" ++ OPERATION_NAME_GET_QUERY_RESULTS ++ "\""))),
          Effects.mk [] [])
      ∧ "not implemented".toList.isPrefixOf
          ("not implemented yet: \"" ++ OPERATION_NAME_GET_QUERY_RESULTS ++ "\"").toList
            = true := by
  constructor
  · simp [root, h, OPERATION_NAME_START_QUERY_EXECUTION,
      OPERATION_NAME_GET_QUERY_EXECUTION, OPERATION_NAME_GET_QUERY_RESULTS]
  · decide

/-- Witness for C9 at a concrete request. -/
theorem c9_get_query_results_not_implemented_witness :
    root Store.init 0 (Req.mk (some OPERATION_NAME_GET_QUERY_RESULTS) none none)
        = (Outcome.resp (Resp.mk 501 (RespBody.text
            ("not implemented yet: \"" ++ OPERATION_NAME_GET_QUERY_RESULTS ++ "\""))),
          Effects.mk [] [])
      ∧ "not implemented".toList.isPrefixOf
          ("not implemented yet: \"" ++ OPERATION_NAME_GET_QUERY_RESULTS ++ "\"").toList
            = true :=
  c9_get_query_results_not_implemented Store.init 0
    (Req.mk (some OPERATION_NAME_GET_QUERY_RESULTS) none none) rfl

/-- C10: when a get-query-execution request's content type is not an
`application/x-amz-json-*` variant, the JSON body is not extracted at all,
so the dispatcher answers HTTP 400 "unexpected input" whatever the body —
even a well-formed JSON object carrying a valid `QueryExecutionId`. -/
theorem c10_content_type_gate (s : Store) (rnd : Nat) (req : Req) (ct : String × String)
    (htgt : req.target = some OPERATION_NAME_GET_QUERY_EXECUTION)
    (hct : req.contentType = some ct)
    (hbad : json_content_type_filter ct = false) :
    extractParam req = none
      ∧ root s rnd req
          = (Outcome.resp (Resp.mk 400 (RespBody.text "unexpected input")),
            Effects.mk [] []) := by
  have hex : extractParam req = none := by
    simp [extractParam, hct, hbad]
  refine ⟨hex, ?_⟩
  simp [root, htgt, hex, OPERATION_NAME_START_QUERY_EXECUTION,
    OPERATION_NAME_GET_QUERY_EXECUTION]

/-- Witness for C10: `application/json` is rejected by the filter, so a
well-formed body with a valid `QueryExecutionId` still yields 400. -/
theorem c10_content_type_gate_witness :
    paramFromJson (Json.obj [("QueryExecutionId", Json.str "abc")])
        = some (Param.mk "abc")
      ∧ extractParam (Req.mk (some OPERATION_NAME_GET_QUERY_EXECUTION)
          (some ("application", "json"))
          (some (Json.obj [("QueryExecutionId", Json.str "abc")]))) = none
      ∧ root Store.init 0 (Req.mk (some OPERATION_NAME_GET_QUERY_EXECUTION)
          (some ("application", "json"))
          (some (Json.obj [("QueryExecutionId", Json.str "abc")])))
          = (Outcome.resp (Resp.mk 400 (RespBody.text "unexpected input")),
            Effects.mk [] []) := by
  have h := c10_content_type_gate Store.init 0
    (Req.mk (some OPERATION_NAME_GET_QUERY_EXECUTION)
      (some ("application", "json"))
      (some (Json.obj [("QueryExecutionId", Json.str "abc")])))
    ("application", "json") rfl rfl (by decide)
  exact ⟨rfl, h.1, h.2⟩
